import Mathlib

/-!
Shallow embedding of the waypoint-plugin-s3 repository: the platform
component (S3 deploy), the registry component (push), and the Docker-based
builder component (build). External SDK and standard-library calls
(filepath.Walk visits, os.Stat, filepath.Rel, os.Open, http.DetectContentType,
s3manager upload, the Docker client calls) are modelled as oracle inputs
supplied through environment structures; the control flow of each action
function is translated line by line from the Go source.
-/

namespace registry

/-- registry.Zip: the result struct of Registry.push, holding one path. -/
structure Zip where
  Path : String
deriving DecidableEq, Repr

/-- registry.RegistryConfig with fields Name and Version. -/
structure RegistryConfig where
  Name : String
  Version : String
deriving DecidableEq, Repr

structure Registry where
  config : RegistryConfig

/-- Registry.ConfigSet: type-asserts to *RegistryConfig (modelled by
Option), then validates only the Name field for non-emptiness. -/
def Registry.ConfigSet (_r : Registry) (config : Option RegistryConfig) :
    Except String Unit :=
  match config with
  | none => .error "expected *RegisterConfig as parameter"
  | some c =>
    if c.Name = "" then .error "name must be set to a valid directory"
    else .ok ()

end registry

namespace builder

/-- builder.Zip: the result struct of Builder.build, holding one path. -/
structure Zip where
  Path : String
deriving DecidableEq, Repr

/-- builder.BuildConfig of the Docker-based builder. -/
structure BuildConfig where
  Source : String
  OutputName : String
  Dockerfile : String
deriving DecidableEq, Repr

structure Builder where
  config : BuildConfig

/-- Builder.ConfigSet of the Docker-based builder: only the type assertion,
no field validation at all. -/
def Builder.ConfigSet (_b : Builder) (config : Option BuildConfig) :
    Except String Unit :=
  match config with
  | none => .error "expected *BuildConfig as parameter"
  | some _ => .ok ()

/-- grpc status codes used by the builder. -/
inductive Code
  | FailedPrecondition
  | Internal
deriving DecidableEq, Repr

/-- A Go error value as the builder returns it: either an underlying
error passed along unchanged, or one wrapped by status.Errorf with a
grpc code and a formatted message. -/
inductive GoError
  | raw (msg : String)
  | grpc (code : Code) (msg : String)
deriving DecidableEq, Repr

/-- True exactly when the error carries a grpc status code. -/
def GoError.isWrapped : GoError → Bool
  | .raw _ => false
  | .grpc _ _ => true

/-- types.ImageBuildOptions, with the fields Builder.build fills in. -/
structure ImageBuildOptions where
  Dockerfile : String
  Tags : List String
  Remove : Bool
deriving DecidableEq, Repr

/-- component.Source, with the fields Builder.build reads. -/
structure Source where
  App : String
  Path : String
deriving DecidableEq, Repr

/-- One external Docker-API call made by Builder.build, with the
arguments the source passes to it. -/
inductive DockerCall
  | newClient
  | imageBuild (opts : ImageBuildOptions)
  | containerCreate (image : String)
  | copyFromContainer (id : String) (path : String)
  | containerRemove (id : String)
deriving DecidableEq, Repr

/-- Position of each Docker-API call in the linear call sequence. -/
def DockerCall.tag : DockerCall → Nat
  | .newClient => 0
  | .imageBuild _ => 1
  | .containerCreate _ => 2
  | .copyFromContainer _ _ => 3
  | .containerRemove _ => 4

/-- Environment of one Builder.build run: the oracle results of every
external call the function makes, in source order. The errors of
archive.CopyTo and of ContainerRemove are recorded here even though the
source discards both return values. -/
structure DockerEnv where
  newClientErr : Option String
  outputWritersErr : Option String
  tarErr : Option String
  imageBuildErr : Option String
  displayErr : Option String
  containerCreateResult : Except String String
  copyFromContainerResult : Except String Bool
  mkdirTempResult : Except String String
  copyToErr : Option String
  containerRemoveErr : Option String

/-- Builder.build of the Docker-based builder, translated from the Go
source. The second component of the result is the trace of external
Docker-API calls made, in order, failed calls included. Note that the
source ignores the return values of archive.CopyTo and of
ContainerRemove, so env.copyToErr and env.containerRemoveErr are never
inspected. -/
def Builder.build (b : Builder) (src : Source) (env : DockerEnv) :
    Except GoError Zip × List DockerCall :=
  match env.newClientErr with
  | some m =>
    (.error (.grpc .FailedPrecondition
      ("unable to create Docker client: " ++ m)), [.newClient])
  | none =>
    let dockerfile :=
      if b.config.Dockerfile = "" then "Dockerfile" else b.config.Dockerfile
    match env.outputWritersErr with
    | some m => (.error (.raw m), [.newClient])
    | none =>
      let imageTag := "waypoint.local/" ++ src.App
      let opts : ImageBuildOptions :=
        { Dockerfile := dockerfile, Tags := [imageTag], Remove := true }
      match env.tarErr with
      | some m => (.error (.raw m), [.newClient])
      | none =>
        match env.imageBuildErr with
        | some m => (.error (.raw m), [.newClient, .imageBuild opts])
        | none =>
          match env.displayErr with
          | some m =>
            (.error (.grpc .Internal
              ("unable to stream build logs to the terminal: " ++ m)),
             [.newClient, .imageBuild opts])
          | none =>
            match env.containerCreateResult with
            | .error m =>
              (.error (.grpc .FailedPrecondition
                ("unable to create Docker container: " ++ m)),
               [.newClient, .imageBuild opts, .containerCreate imageTag])
            | .ok id =>
              match env.copyFromContainerResult with
              | .error m =>
                (.error (.grpc .FailedPrecondition
                  ("unable to copy assets from Docker container: " ++ m)),
                 [.newClient, .imageBuild opts, .containerCreate imageTag,
                  .copyFromContainer id b.config.Source])
              | .ok _isDir =>
                match env.mkdirTempResult with
                | .error m =>
                  (.error (.grpc .FailedPrecondition
                    ("unable to create tmp directory: " ++ m)),
                   [.newClient, .imageBuild opts, .containerCreate imageTag,
                    .copyFromContainer id b.config.Source])
                | .ok destDir =>
                  (.ok ⟨destDir⟩,
                   [.newClient, .imageBuild opts, .containerCreate imageTag,
                    .copyFromContainer id b.config.Source,
                    .containerRemove id])

/-- The complete Docker-API call sequence of a run of Builder.build that
reaches the end, with the arguments determined by the config, the source
and the environment. -/
def fullTrace (b : Builder) (src : Source) (env : DockerEnv) :
    List DockerCall :=
  let dockerfile :=
    if b.config.Dockerfile = "" then "Dockerfile" else b.config.Dockerfile
  let imageTag := "waypoint.local/" ++ src.App
  let opts : ImageBuildOptions :=
    { Dockerfile := dockerfile, Tags := [imageTag], Remove := true }
  let id := match env.containerCreateResult with
    | .ok i => i
    | .error _ => ""
  [.newClient, .imageBuild opts, .containerCreate imageTag,
   .copyFromContainer id b.config.Source, .containerRemove id]

end builder

namespace registry

/-- Registry.push, translated from the Go source: no external call, it
returns a registry.Zip carrying the input binary's path, with no error. -/
def Registry.push (_r : Registry) (binary : builder.Zip) :
    Except String Zip :=
  .ok { Path := binary.Path }

end registry

namespace platform

/-- platform.DeployConfig with fields Region and BucketName. -/
structure DeployConfig where
  Region : String
  BucketName : String
deriving DecidableEq, Repr

structure Platform where
  config : DeployConfig

/-- Platform.ConfigSet: type-asserts to *DeployConfig, then validates
Region and BucketName for non-emptiness, in that order. -/
def Platform.ConfigSet (_p : Platform) (config : Option DeployConfig) :
    Except String Unit :=
  match config with
  | none => .error "expected *DeployConfig as parameter"
  | some c =>
    if c.Region = "" then .error "region must be set to a valid AWS region"
    else if c.BucketName = "" then
      .error "bucket_name must be set to a valid S3 bucket"
    else .ok ()

/-- s3manager.UploadInput, with the fields Platform.deploy fills in. -/
structure UploadInput where
  Key : String
  Bucket : String
  Body : List Nat
  ACL : String
  ContentType : String
deriving DecidableEq, Repr

/-- s3manager.BatchUploadObject wrapping one UploadInput. -/
structure BatchUploadObject where
  Object : UploadInput
deriving DecidableEq, Repr

instance {ε α : Type} [DecidableEq ε] [DecidableEq α] :
    DecidableEq (Except ε α) := fun
  | .ok a, .ok b =>
    if h : a = b then .isTrue (by rw [h])
    else .isFalse (by intro hc; cases hc; exact h rfl)
  | .ok _, .error _ => .isFalse (by intro hc; cases hc)
  | .error _, .ok _ => .isFalse (by intro hc; cases hc)
  | .error a, .error b =>
    if h : a = b then .isTrue (by rw [h])
    else .isFalse (by intro hc; cases hc; exact h rfl)

/-- The result of os.Stat as used by deploy: only IsDir is inspected. -/
structure FileInfo where
  IsDir : Bool
deriving DecidableEq, Repr

/-- One visit of the walk function registered with filepath.Walk: the
visited path, the error argument Walk passes in, and the oracle results
of the os.Stat, filepath.Rel and os.Open (plus read) calls the walk
function makes at this path. -/
structure WalkEntry where
  path : String
  err : Option String
  statResult : Except String FileInfo
  relResult : Except String String
  openResult : Except String (List Nat)
deriving DecidableEq, Repr

/-- The anonymous walk function of Platform.deploy, translated line by
line: propagate the incoming error, stat the path, skip directories,
compute the relative path, open and read the file, and build one
BatchUploadObject. Returns .ok none on a skipped directory. -/
def walkFn (cfg : DeployConfig) (detect : List Nat → String)
    (e : WalkEntry) : Except String (Option BatchUploadObject) :=
  match e.err with
  | some m => .error m
  | none =>
    match e.statResult with
    | .error m => .error m
    | .ok stat =>
      if stat.IsDir then .ok none
      else
        match e.relResult with
        | .error m => .error m
        | .ok relativePath =>
          match e.openResult with
          | .error m =>
            .error ("failed to open file \"" ++ e.path ++ "\", " ++ m)
          | .ok buffer =>
            .ok (some { Object :=
              { Key := relativePath
                Bucket := cfg.BucketName
                Body := buffer
                ACL := "public-read"
                ContentType := detect buffer } })

/-- filepath.Walk over the visit sequence: apply walkFn to each entry in
order, stopping at and returning the first error, and collecting the
appended objects in visit order. -/
def walkAll (cfg : DeployConfig) (detect : List Nat → String) :
    List WalkEntry → Except String (List BatchUploadObject)
  | [] => .ok []
  | e :: es =>
    match walkFn cfg detect e with
    | .error m => .error m
    | .ok none => walkAll cfg detect es
    | .ok (some o) =>
      match walkAll cfg detect es with
      | .error m => .error m
      | .ok objs => .ok (o :: objs)

/-- The object walkFn appends for an entry, when it appends one. -/
def entryObject (cfg : DeployConfig) (detect : List Nat → String)
    (e : WalkEntry) : Option BatchUploadObject :=
  match walkFn cfg detect e with
  | .ok (some o) => some o
  | _ => none

/-- The empty result struct of Platform.deploy. -/
structure Deployment
deriving DecidableEq, Repr

/-- Environment of one Platform.deploy run: the walk visits under
zip.Path, the http.DetectContentType oracle, and the error result of
uploader.UploadWithIterator as a function of the objects handed to it. -/
structure DeployEnv where
  entries : List WalkEntry
  detect : List Nat → String
  uploadErr : List BatchUploadObject → Option String

/-- Platform.deploy, translated from the Go source. The second component
of the result records every call made to the batch-upload iterator, each
with the full object collection handed over in that call. -/
def Platform.deploy (p : Platform) (env : DeployEnv) (_zip : registry.Zip) :
    Except String Deployment × List (List BatchUploadObject) :=
  match walkAll p.config env.detect env.entries with
  | .error m => (.error m, [])
  | .ok objects =>
    match env.uploadErr objects with
    | some m => (.error m, [objects])
    | none => (.ok ⟨⟩, [objects])

end platform

/-- C7: Registry.push never fails and returns a result struct whose single
path field is exactly the path carried by the input artifact. -/
theorem push_identity_on_path (r : registry.Registry) (binary : builder.Zip) :
    registry.Registry.push r binary = .ok { Path := binary.Path } :=
  rfl

/-- C6: Platform.ConfigSet on a *DeployConfig returns an error exactly when
Region or BucketName is empty, and returns nil when both are non-empty. -/
theorem platform_configset_iff (p : platform.Platform)
    (c : platform.DeployConfig) :
    ((∃ m, platform.Platform.ConfigSet p (some c) = .error m) ↔
      (c.Region = "" ∨ c.BucketName = ""))
    ∧ (platform.Platform.ConfigSet p (some c) = .ok () ↔
      (c.Region ≠ "" ∧ c.BucketName ≠ "")) := by
  by_cases hr : c.Region = "" <;> by_cases hb : c.BucketName = "" <;>
    simp [platform.Platform.ConfigSet, hr, hb]

/-- C5 counterexample: a RegistryConfig with an empty Version field and a
BuildConfig with all three fields empty are both accepted by their
components' ConfigSet, so not every scalar config field is validated for
non-emptiness. -/
theorem configset_unvalidated_fields_cex :
    registry.Registry.ConfigSet ⟨⟨"", ""⟩⟩
      (some { Name := "app", Version := "" }) = .ok ()
    ∧ builder.Builder.ConfigSet ⟨⟨"", "", ""⟩⟩
      (some { Source := "", OutputName := "", Dockerfile := "" }) = .ok () := by
  exact ⟨rfl, rfl⟩

/-- C5 amended: Platform.ConfigSet validates both of its fields for
non-emptiness; Registry.ConfigSet validates only Name, leaving Version
unvalidated; the Docker builder's ConfigSet validates no field and accepts
every config. A config with an empty validated field is rejected. -/
theorem configset_field_validation :
    (∀ (r : registry.Registry) (c : registry.RegistryConfig),
      registry.Registry.ConfigSet r (some c) = .ok () ↔ c.Name ≠ "")
    ∧ (∀ (b : builder.Builder) (c : builder.BuildConfig),
      builder.Builder.ConfigSet b (some c) = .ok ())
    ∧ (∀ (p : platform.Platform) (c : platform.DeployConfig),
      platform.Platform.ConfigSet p (some c) = .ok () ↔
        (c.Region ≠ "" ∧ c.BucketName ≠ "")) := by
  refine ⟨fun r c => ?_, fun b c => rfl, fun p c => ?_⟩
  · by_cases hn : c.Name = "" <;> simp [registry.Registry.ConfigSet, hn]
  · by_cases hr : c.Region = "" <;> by_cases hb : c.BucketName = "" <;>
      simp [platform.Platform.ConfigSet, hr, hb]

/-- C10: whenever Builder.build makes its image-build call, the Dockerfile
field of the options is the configured Dockerfile value, defaulted to
"Dockerfile" when the configured value is empty. -/
theorem build_dockerfile_default (b : builder.Builder) (src : builder.Source)
    (env : builder.DockerEnv) (opts : builder.ImageBuildOptions)
    (h : builder.DockerCall.imageBuild opts ∈
      (builder.Builder.build b src env).2) :
    opts.Dockerfile =
      if b.config.Dockerfile = "" then "Dockerfile"
      else b.config.Dockerfile := by
  obtain ⟨nc, ow, tar, ib, disp, ccr, cfr, mtr, cte, cre⟩ := env
  cases nc <;> cases ow <;> cases tar <;> cases ib <;> cases disp <;>
    cases ccr <;> cases cfr <;> cases mtr <;>
    simp_all [builder.Builder.build]

/-- C10 witness: a successful run whose image-build call carries the
default Dockerfile name, the configured value being empty. -/
theorem build_dockerfile_default_witness :
    builder.DockerCall.imageBuild ⟨"Dockerfile", ["waypoint.local/app"], true⟩
      ∈ (builder.Builder.build ⟨⟨"/src", "out", ""⟩⟩ ⟨"app", "/p"⟩
        ⟨none, none, none, none, none, .ok "cid", .ok true,
         .ok "/tmp/d", none, none⟩).2
    ∧ (⟨"Dockerfile", ["waypoint.local/app"], true⟩ :
        builder.ImageBuildOptions).Dockerfile =
      if ("" : String) = "" then "Dockerfile" else "" :=
  ⟨by decide,
   build_dockerfile_default ⟨⟨"/src", "out", ""⟩⟩ ⟨"app", "/p"⟩
     ⟨none, none, none, none, none, .ok "cid", .ok true,
      .ok "/tmp/d", none, none⟩ _ (by decide)⟩

/-- C2: the Docker-API calls made by Builder.build are always an initial
segment of the linear sequence create client, build image, create
container, copy files out, remove container — so they occur in exactly
that order with no call retried or repeated — and a successful run makes
exactly the whole sequence. -/
theorem build_docker_call_order (b : builder.Builder) (src : builder.Source)
    (env : builder.DockerEnv) :
    (∃ rest, (builder.Builder.build b src env).2 ++ rest =
      builder.fullTrace b src env)
    ∧ (∃ rest, ((builder.Builder.build b src env).2.map
        builder.DockerCall.tag) ++ rest = [0, 1, 2, 3, 4])
    ∧ (∀ z, (builder.Builder.build b src env).1 = .ok z →
      (builder.Builder.build b src env).2 = builder.fullTrace b src env) := by
  obtain ⟨nc, ow, tar, ib, disp, ccr, cfr, mtr, cte, cre⟩ := env
  cases nc <;> cases ow <;> cases tar <;> cases ib <;> cases disp <;>
    cases ccr <;> cases cfr <;> cases mtr <;>
    first
      | exact ⟨⟨_, rfl⟩, ⟨_, rfl⟩, fun z hz => Except.noConfusion hz⟩
      | exact ⟨⟨_, rfl⟩, ⟨_, rfl⟩, fun z _ => rfl⟩

/-- C2 witness: a run with every call succeeding performs exactly the full
call sequence. -/
theorem build_docker_call_order_witness :
    (builder.Builder.build ⟨⟨"/src", "out", "df"⟩⟩ ⟨"app", "/p"⟩
      ⟨none, none, none, none, none, .ok "cid", .ok true,
       .ok "/tmp/d", none, none⟩).2 =
    builder.fullTrace ⟨⟨"/src", "out", "df"⟩⟩ ⟨"app", "/p"⟩
      ⟨none, none, none, none, none, .ok "cid", .ok true,
       .ok "/tmp/d", none, none⟩ :=
  (build_docker_call_order ⟨⟨"/src", "out", "df"⟩⟩ ⟨"app", "/p"⟩
    ⟨none, none, none, none, none, .ok "cid", .ok true,
     .ok "/tmp/d", none, none⟩).2.2 ⟨"/tmp/d"⟩ rfl

/-- C4 counterexample: a run in which the ContainerRemove call and the
archive.CopyTo call both fail, yet Builder.build still returns success:
the action discards those SDK calls' errors instead of stopping. -/
theorem container_remove_error_ignored_cex :
    (builder.Builder.build ⟨⟨"/src", "out", "df"⟩⟩ ⟨"app", "/p"⟩
      ⟨none, none, none, none, none, .ok "cid", .ok true, .ok "/tmp/d",
       some "copy failed", some "remove failed"⟩).1 = Except.ok ⟨"/tmp/d"⟩
    ∧ builder.DockerCall.containerRemove "cid" ∈
      (builder.Builder.build ⟨⟨"/src", "out", "df"⟩⟩ ⟨"app", "/p"⟩
        ⟨none, none, none, none, none, .ok "cid", .ok true, .ok "/tmp/d",
         some "copy failed", some "remove failed"⟩).2 := by
  exact ⟨rfl, by decide⟩

/-- C4 amended: no action retries or recovers from a failed SDK call, and
for every SDK call whose result Builder.build inspects — client creation,
output writers, tar, image build, log streaming, container creation,
copy-from-container, temp-dir creation — a failure stops the action with
an error, so success implies all inspected calls succeeded; however the
errors of archive.CopyTo and ContainerRemove are discarded, so their
failure does not prevent success. -/
theorem checked_sdk_failure_stops_build (b : builder.Builder)
    (src : builder.Source) (env : builder.DockerEnv) (z : builder.Zip)
    (h : (builder.Builder.build b src env).1 = .ok z) :
    env.newClientErr = none ∧ env.outputWritersErr = none
    ∧ env.tarErr = none ∧ env.imageBuildErr = none ∧ env.displayErr = none
    ∧ (∃ id, env.containerCreateResult = .ok id)
    ∧ (∃ d, env.copyFromContainerResult = .ok d)
    ∧ env.mkdirTempResult = .ok z.Path := by
  obtain ⟨nc, ow, tar, ib, disp, ccr, cfr, mtr, cte, cre⟩ := env
  cases nc <;> cases ow <;> cases tar <;> cases ib <;> cases disp <;>
    cases ccr <;> cases cfr <;> cases mtr <;>
    first
      | exact Except.noConfusion h
      | (injection h with h2; subst h2;
         exact ⟨rfl, rfl, rfl, rfl, rfl, ⟨_, rfl⟩, ⟨_, rfl⟩, rfl⟩)

/-- C4 amended witness: a fully successful run, at which the theorem
reports every inspected call's success. -/
theorem checked_sdk_failure_stops_build_witness :
    (builder.Builder.build ⟨⟨"/src", "out", "df"⟩⟩ ⟨"app", "/p"⟩
      ⟨none, none, none, none, none, .ok "cid", .ok true,
       .ok "/tmp/d", none, none⟩).1 = .ok ⟨"/tmp/d"⟩
    ∧ ((none : Option String) = none ∧ (none : Option String) = none
      ∧ (none : Option String) = none ∧ (none : Option String) = none
      ∧ (none : Option String) = none
      ∧ (∃ id, (Except.ok "cid" : Except String String) = .ok id)
      ∧ (∃ d, (Except.ok true : Except String Bool) = .ok d)
      ∧ (Except.ok "/tmp/d" : Except String String) =
          .ok (builder.Zip.mk "/tmp/d").Path) :=
  ⟨rfl,
   checked_sdk_failure_stops_build ⟨⟨"/src", "out", "df"⟩⟩ ⟨"app", "/p"⟩
     ⟨none, none, none, none, none, .ok "cid", .ok true,
      .ok "/tmp/d", none, none⟩ ⟨"/tmp/d"⟩ rfl⟩

/-- C3 counterexample: when the image-build call fails, Builder.build
returns the SDK's error unchanged, with no grpc status code attached, so
not every SDK failure inside an action is wrapped with a status code. -/
theorem sdk_error_unwrapped_cex :
    (builder.Builder.build ⟨⟨"/src", "out", "df"⟩⟩ ⟨"app", "/p"⟩
      ⟨none, none, none, some "boom", none, .ok "cid", .ok true,
       .ok "/tmp/d", none, none⟩).1 =
      Except.error (builder.GoError.raw "boom")
    ∧ builder.GoError.isWrapped (builder.GoError.raw "boom") = false := by
  exact ⟨rfl, rfl⟩

/-- C3 amended: failures of the Docker client creation, of build-log
streaming, of container creation, of copy-from-container and of temp-dir
creation are wrapped with a grpc status code and message before being
returned; failures of the output-writer lookup, of the build-context tar,
of the image build and of the S3 batch upload are returned unchanged with
no wrapping; in every case the action returns the resulting error directly
to its caller. -/
theorem sdk_error_propagation (b : builder.Builder) (src : builder.Source)
    (env : builder.DockerEnv) (p : platform.Platform)
    (denv : platform.DeployEnv) (zip : registry.Zip) :
    (∀ m, env.newClientErr = some m →
      (builder.Builder.build b src env).1 = .error (.grpc .FailedPrecondition
        ("unable to create Docker client: " ++ m)))
    ∧ (∀ m, env.newClientErr = none → env.outputWritersErr = some m →
      (builder.Builder.build b src env).1 = .error (.raw m))
    ∧ (∀ m, env.newClientErr = none → env.outputWritersErr = none →
      env.tarErr = some m →
      (builder.Builder.build b src env).1 = .error (.raw m))
    ∧ (∀ m, env.newClientErr = none → env.outputWritersErr = none →
      env.tarErr = none → env.imageBuildErr = some m →
      (builder.Builder.build b src env).1 = .error (.raw m))
    ∧ (∀ m, env.newClientErr = none → env.outputWritersErr = none →
      env.tarErr = none → env.imageBuildErr = none → env.displayErr = some m →
      (builder.Builder.build b src env).1 = .error (.grpc .Internal
        ("unable to stream build logs to the terminal: " ++ m)))
    ∧ (∀ m, env.newClientErr = none → env.outputWritersErr = none →
      env.tarErr = none → env.imageBuildErr = none → env.displayErr = none →
      env.containerCreateResult = .error m →
      (builder.Builder.build b src env).1 = .error (.grpc .FailedPrecondition
        ("unable to create Docker container: " ++ m)))
    ∧ (∀ m id, env.newClientErr = none → env.outputWritersErr = none →
      env.tarErr = none → env.imageBuildErr = none → env.displayErr = none →
      env.containerCreateResult = .ok id →
      env.copyFromContainerResult = .error m →
      (builder.Builder.build b src env).1 = .error (.grpc .FailedPrecondition
        ("unable to copy assets from Docker container: " ++ m)))
    ∧ (∀ m id d, env.newClientErr = none → env.outputWritersErr = none →
      env.tarErr = none → env.imageBuildErr = none → env.displayErr = none →
      env.containerCreateResult = .ok id →
      env.copyFromContainerResult = .ok d →
      env.mkdirTempResult = .error m →
      (builder.Builder.build b src env).1 = .error (.grpc .FailedPrecondition
        ("unable to create tmp directory: " ++ m)))
    ∧ (∀ objs m,
      platform.walkAll p.config denv.detect denv.entries = .ok objs →
      denv.uploadErr objs = some m →
      (platform.Platform.deploy p denv zip).1 = .error m) := by
  refine ⟨?_, ?_, ?_, ?_, ?_, ?_, ?_, ?_, ?_⟩
  · intro m h1; simp [builder.Builder.build, h1]
  · intro m h1 h2; simp [builder.Builder.build, h1, h2]
  · intro m h1 h2 h3; simp [builder.Builder.build, h1, h2, h3]
  · intro m h1 h2 h3 h4; simp [builder.Builder.build, h1, h2, h3, h4]
  · intro m h1 h2 h3 h4 h5; simp [builder.Builder.build, h1, h2, h3, h4, h5]
  · intro m h1 h2 h3 h4 h5 h6
    simp [builder.Builder.build, h1, h2, h3, h4, h5, h6]
  · intro m id h1 h2 h3 h4 h5 h6 h7
    simp [builder.Builder.build, h1, h2, h3, h4, h5, h6, h7]
  · intro m id d h1 h2 h3 h4 h5 h6 h7 h8
    simp [builder.Builder.build, h1, h2, h3, h4, h5, h6, h7, h8]
  · intro objs m h1 h2
    simp [platform.Platform.deploy, h1, h2]

/-- C3 amended witness: a failing client-creation call, whose error comes
back wrapped with the FailedPrecondition status code and message. -/
theorem sdk_error_propagation_witness :
    (some "no docker" : Option String) = some "no docker"
    ∧ (builder.Builder.build ⟨⟨"/src", "out", "df"⟩⟩ ⟨"app", "/p"⟩
      ⟨some "no docker", none, none, none, none, .ok "cid", .ok true,
       .ok "/tmp/d", none, none⟩).1 = .error (.grpc .FailedPrecondition
        ("unable to create Docker client: " ++ "no docker")) :=
  ⟨rfl,
   (sdk_error_propagation ⟨⟨"/src", "out", "df"⟩⟩ ⟨"app", "/p"⟩
     ⟨some "no docker", none, none, none, none, .ok "cid", .ok true,
      .ok "/tmp/d", none, none⟩ ⟨⟨"r", "b"⟩⟩
     ⟨[], fun _ => "", fun _ => none⟩ ⟨"/z"⟩).1 "no docker" rfl⟩

theorem entryObject_some (cfg : platform.DeployConfig)
    (detect : List Nat → String) (e : platform.WalkEntry)
    (o : platform.BatchUploadObject)
    (h : platform.entryObject cfg detect e = some o) :
    platform.walkFn cfg detect e = .ok (some o) := by
  unfold platform.entryObject at h
  cases hw : platform.walkFn cfg detect e <;> rw [hw] at h
  case error m => simp at h
  case ok r =>
    cases r with
    | none => simp at h
    | some o2 => simp at h; rw [h]

theorem walkFn_some_fields (cfg : platform.DeployConfig)
    (detect : List Nat → String) (e : platform.WalkEntry)
    (o : platform.BatchUploadObject)
    (h : platform.walkFn cfg detect e = .ok (some o)) :
    e.statResult = .ok ⟨false⟩
    ∧ e.relResult = .ok o.Object.Key
    ∧ o.Object.Bucket = cfg.BucketName
    ∧ o.Object.ACL = "public-read"
    ∧ o.Object.ContentType = detect o.Object.Body := by
  obtain ⟨path, err, statR, relR, openR⟩ := e
  cases err with
  | some m => simp [platform.walkFn] at h
  | none =>
  cases statR with
  | error m => simp [platform.walkFn] at h
  | ok stat =>
  obtain ⟨d⟩ := stat
  cases d with
  | true => simp [platform.walkFn] at h
  | false =>
  cases relR with
  | error m => simp [platform.walkFn] at h
  | ok rel =>
  cases openR with
  | error m => simp [platform.walkFn] at h
  | ok buf =>
  simp [platform.walkFn] at h
  subst h
  simp

theorem walkFn_ok_dir_iff (cfg : platform.DeployConfig)
    (detect : List Nat → String) (e : platform.WalkEntry)
    (r : Option platform.BatchUploadObject)
    (h : platform.walkFn cfg detect e = .ok r) :
    (r.isSome = true ↔ e.statResult = .ok ⟨false⟩) := by
  obtain ⟨path, err, statR, relR, openR⟩ := e
  cases err with
  | some m => simp [platform.walkFn] at h
  | none =>
  cases statR with
  | error m => simp [platform.walkFn] at h
  | ok stat =>
  obtain ⟨d⟩ := stat
  cases d with
  | true =>
    simp [platform.walkFn] at h
    subst h
    simp
  | false =>
  cases relR with
  | error m => simp [platform.walkFn] at h
  | ok rel =>
  cases openR with
  | error m => simp [platform.walkFn] at h
  | ok buf =>
  simp [platform.walkFn] at h
  subst h
  simp

theorem walkAll_ok_filterMap (cfg : platform.DeployConfig)
    (detect : List Nat → String) (es : List platform.WalkEntry) :
    ∀ objs, platform.walkAll cfg detect es = .ok objs →
      objs = es.filterMap (platform.entryObject cfg detect) := by
  induction es with
  | nil =>
    intro objs h
    simp [platform.walkAll] at h
    simp [h.symm]
  | cons e es ih =>
    intro objs h
    cases hw : platform.walkFn cfg detect e with
    | error m => simp [platform.walkAll, hw] at h
    | ok r =>
      cases r with
      | none =>
        simp only [platform.walkAll, hw] at h
        rw [List.filterMap_cons]
        rw [show platform.entryObject cfg detect e = none from by
          simp [platform.entryObject, hw]]
        exact ih objs h
      | some o =>
        simp only [platform.walkAll, hw] at h
        cases hr : platform.walkAll cfg detect es <;> rw [hr] at h
        case error m => simp at h
        case ok objs2 =>
          simp at h
          rw [List.filterMap_cons]
          rw [show platform.entryObject cfg detect e = some o from by
            simp [platform.entryObject, hw]]
          rw [← h, ih objs2 hr]

theorem walkAll_ok_entry_ok (cfg : platform.DeployConfig)
    (detect : List Nat → String) (es : List platform.WalkEntry) :
    ∀ objs, platform.walkAll cfg detect es = .ok objs →
      ∀ e ∈ es, ∃ r, platform.walkFn cfg detect e = .ok r := by
  induction es with
  | nil => intro objs _ e he; exact absurd he (by simp)
  | cons e es ih =>
    intro objs h e2 he2
    cases hw : platform.walkFn cfg detect e with
    | error m => simp [platform.walkAll, hw] at h
    | ok r =>
      rcases List.mem_cons.mp he2 with he2 | he2
      · exact ⟨r, he2 ▸ hw⟩
      · cases r with
        | none =>
          simp only [platform.walkAll, hw] at h
          exact ih objs h e2 he2
        | some o =>
          simp only [platform.walkAll, hw] at h
          cases hr : platform.walkAll cfg detect es <;> rw [hr] at h
          case error m => simp at h
          case ok objs2 => exact ih objs2 hr e2 he2

/-- C1: when the directory walk succeeds, Platform.deploy hands the whole
object collection to the batch-upload iterator in a single call; the
collection has exactly one object per walked entry that is a
non-directory file, and each object's Key is that file's path relative
to zip.Path (the filepath.Rel result) and its Bucket the configured
BucketName. -/
theorem deploy_single_batch_per_file (p : platform.Platform)
    (env : platform.DeployEnv) (zip : registry.Zip)
    (objs : List platform.BatchUploadObject)
    (h : platform.walkAll p.config env.detect env.entries = .ok objs) :
    (platform.Platform.deploy p env zip).2 = [objs]
    ∧ objs = env.entries.filterMap (platform.entryObject p.config env.detect)
    ∧ (∀ e ∈ env.entries,
        ((platform.entryObject p.config env.detect e).isSome = true ↔
          e.statResult = .ok ⟨false⟩))
    ∧ (∀ e ∈ env.entries, ∀ o,
        platform.entryObject p.config env.detect e = some o →
          o.Object.Bucket = p.config.BucketName
          ∧ e.relResult = .ok o.Object.Key) := by
  refine ⟨?_, walkAll_ok_filterMap _ _ _ objs h, ?_, ?_⟩
  · cases hu : env.uploadErr objs <;>
      simp [platform.Platform.deploy, h, hu]
  · intro e he
    obtain ⟨r, hr⟩ :=
      walkAll_ok_entry_ok p.config env.detect env.entries objs h e he
    have hiff := walkFn_ok_dir_iff p.config env.detect e r hr
    cases r with
    | none => simpa [platform.entryObject, hr] using hiff
    | some o => simpa [platform.entryObject, hr] using hiff
  · intro e he o ho
    have hfields := walkFn_some_fields p.config env.detect e o
      (entryObject_some p.config env.detect e o ho)
    exact ⟨hfields.2.2.1, hfields.2.1⟩

/-- C1 witness: a walk over one directory and one regular file queues
exactly one object, keyed by the relative path, in one iterator call. -/
theorem deploy_single_batch_per_file_witness :
    platform.walkAll ⟨"us-east-1", "bkt"⟩ (fun _ => "text/plain")
      [⟨"/z", none, .ok ⟨true⟩, .ok ".", .ok []⟩,
       ⟨"/z/a.txt", none, .ok ⟨false⟩, .ok "a.txt", .ok [104, 105]⟩] =
      .ok [⟨⟨"a.txt", "bkt", [104, 105], "public-read", "text/plain"⟩⟩]
    ∧ ((platform.Platform.deploy ⟨⟨"us-east-1", "bkt"⟩⟩
        ⟨[⟨"/z", none, .ok ⟨true⟩, .ok ".", .ok []⟩,
          ⟨"/z/a.txt", none, .ok ⟨false⟩, .ok "a.txt", .ok [104, 105]⟩],
         fun _ => "text/plain", fun _ => none⟩ ⟨"/z"⟩).2 =
        [[⟨⟨"a.txt", "bkt", [104, 105], "public-read", "text/plain"⟩⟩]]
      ∧ [(⟨⟨"a.txt", "bkt", [104, 105], "public-read", "text/plain"⟩⟩ :
            platform.BatchUploadObject)] =
          List.filterMap
            (platform.entryObject ⟨"us-east-1", "bkt"⟩ (fun _ => "text/plain"))
            [⟨"/z", none, .ok ⟨true⟩, .ok ".", .ok []⟩,
             ⟨"/z/a.txt", none, .ok ⟨false⟩, .ok "a.txt", .ok [104, 105]⟩]
      ∧ (∀ e ∈ [(⟨"/z", none, .ok ⟨true⟩, .ok ".", .ok []⟩ :
            platform.WalkEntry),
           ⟨"/z/a.txt", none, .ok ⟨false⟩, .ok "a.txt", .ok [104, 105]⟩],
          ((platform.entryObject ⟨"us-east-1", "bkt"⟩
              (fun _ => "text/plain") e).isSome = true ↔
            e.statResult = .ok ⟨false⟩))
      ∧ (∀ e ∈ [(⟨"/z", none, .ok ⟨true⟩, .ok ".", .ok []⟩ :
            platform.WalkEntry),
           ⟨"/z/a.txt", none, .ok ⟨false⟩, .ok "a.txt", .ok [104, 105]⟩],
          ∀ o, platform.entryObject ⟨"us-east-1", "bkt"⟩
              (fun _ => "text/plain") e = some o →
            o.Object.Bucket = "bkt" ∧ e.relResult = .ok o.Object.Key)) :=
  ⟨rfl,
   deploy_single_batch_per_file ⟨⟨"us-east-1", "bkt"⟩⟩
     ⟨[⟨"/z", none, .ok ⟨true⟩, .ok ".", .ok []⟩,
       ⟨"/z/a.txt", none, .ok ⟨false⟩, .ok "a.txt", .ok [104, 105]⟩],
      fun _ => "text/plain", fun _ => none⟩ ⟨"/z"⟩
     [⟨⟨"a.txt", "bkt", [104, 105], "public-read", "text/plain"⟩⟩] rfl⟩

/-- C8: when the walk fails, Platform.deploy returns exactly the walk's
error and makes no call to the batch-upload iterator. -/
theorem deploy_walk_error_propagates (p : platform.Platform)
    (env : platform.DeployEnv) (zip : registry.Zip) (m : String)
    (h : platform.walkAll p.config env.detect env.entries = .error m) :
    (platform.Platform.deploy p env zip).1 = .error m
    ∧ (platform.Platform.deploy p env zip).2 = [] := by
  simp [platform.Platform.deploy, h]

/-- C8 witness: a walk visit that carries an error makes deploy return
that error with no upload call. -/
theorem deploy_walk_error_propagates_witness :
    platform.walkAll ⟨"us-east-1", "bkt"⟩ (fun _ => "x")
      [⟨"/z/bad", some "walk boom", .ok ⟨false⟩, .ok "bad", .ok []⟩] =
      .error "walk boom"
    ∧ ((platform.Platform.deploy ⟨⟨"us-east-1", "bkt"⟩⟩
        ⟨[⟨"/z/bad", some "walk boom", .ok ⟨false⟩, .ok "bad", .ok []⟩],
         fun _ => "x", fun _ => none⟩ ⟨"/z"⟩).1 = .error "walk boom"
      ∧ (platform.Platform.deploy ⟨⟨"us-east-1", "bkt"⟩⟩
        ⟨[⟨"/z/bad", some "walk boom", .ok ⟨false⟩, .ok "bad", .ok []⟩],
         fun _ => "x", fun _ => none⟩ ⟨"/z"⟩).2 = []) :=
  ⟨rfl,
   deploy_walk_error_propagates ⟨⟨"us-east-1", "bkt"⟩⟩
     ⟨[⟨"/z/bad", some "walk boom", .ok ⟨false⟩, .ok "bad", .ok []⟩],
      fun _ => "x", fun _ => none⟩ ⟨"/z"⟩ "walk boom" rfl⟩

/-- C9: every object Platform.deploy hands to the batch uploader carries
the ACL public-read and a ContentType obtained by running the
content-type detector on the object's own body bytes. -/
theorem deploy_objects_acl_contenttype (p : platform.Platform)
    (env : platform.DeployEnv) (zip : registry.Zip)
    (call : List platform.BatchUploadObject)
    (o : platform.BatchUploadObject)
    (h1 : call ∈ (platform.Platform.deploy p env zip).2)
    (h2 : o ∈ call) :
    o.Object.ACL = "public-read"
    ∧ o.Object.ContentType = env.detect o.Object.Body := by
  cases hw : platform.walkAll p.config env.detect env.entries with
  | error m => simp [platform.Platform.deploy, hw] at h1
  | ok objs =>
    have hcall : call = objs := by
      cases hu : env.uploadErr objs <;>
        simp [platform.Platform.deploy, hw, hu] at h1 <;> exact h1
    rw [hcall,
      walkAll_ok_filterMap p.config env.detect env.entries objs hw] at h2
    obtain ⟨e, he, heo⟩ := List.mem_filterMap.mp h2
    have hfields := walkFn_some_fields p.config env.detect e o
      (entryObject_some p.config env.detect e o heo)
    exact ⟨hfields.2.2.2.1, hfields.2.2.2.2⟩

/-- C9 witness: the single queued object of a one-file walk has ACL
public-read and the detector's ContentType for its bytes. -/
theorem deploy_objects_acl_contenttype_witness :
    [(⟨⟨"a.txt", "bkt", [104, 105], "public-read", "text/plain"⟩⟩ :
        platform.BatchUploadObject)] ∈
      (platform.Platform.deploy ⟨⟨"us-east-1", "bkt"⟩⟩
        ⟨[⟨"/z/a.txt", none, .ok ⟨false⟩, .ok "a.txt", .ok [104, 105]⟩],
         fun _ => "text/plain", fun _ => none⟩ ⟨"/z"⟩).2
    ∧ (⟨⟨"a.txt", "bkt", [104, 105], "public-read", "text/plain"⟩⟩ :
        platform.BatchUploadObject) ∈
      [(⟨⟨"a.txt", "bkt", [104, 105], "public-read", "text/plain"⟩⟩ :
        platform.BatchUploadObject)]
    ∧ ((⟨⟨"a.txt", "bkt", [104, 105], "public-read", "text/plain"⟩⟩ :
        platform.BatchUploadObject).Object.ACL = "public-read"
      ∧ (⟨⟨"a.txt", "bkt", [104, 105], "public-read", "text/plain"⟩⟩ :
        platform.BatchUploadObject).Object.ContentType =
          (fun _ => "text/plain")
            (⟨⟨"a.txt", "bkt", [104, 105], "public-read", "text/plain"⟩⟩ :
              platform.BatchUploadObject).Object.Body) :=
  ⟨by decide, by decide,
   deploy_objects_acl_contenttype ⟨⟨"us-east-1", "bkt"⟩⟩
     ⟨[⟨"/z/a.txt", none, .ok ⟨false⟩, .ok "a.txt", .ok [104, 105]⟩],
      fun _ => "text/plain", fun _ => none⟩ ⟨"/z"⟩
     [⟨⟨"a.txt", "bkt", [104, 105], "public-read", "text/plain"⟩⟩]
     ⟨⟨"a.txt", "bkt", [104, 105], "public-read", "text/plain"⟩⟩
     (by decide) (by decide)⟩

/-- C5 amended witness: a config whose validated Name field is non-empty
is accepted by Registry.ConfigSet even though Version is empty. -/
theorem configset_field_validation_witness :
    registry.Registry.ConfigSet ⟨⟨"", ""⟩⟩
      (some { Name := "app", Version := "" }) = .ok () :=
  (configset_field_validation.1 ⟨⟨"", ""⟩⟩ ⟨"app", ""⟩).mpr (by decide)

/-- C6 witness: an empty Region makes Platform.ConfigSet return an
error. -/
theorem platform_configset_iff_witness :
    ∃ m, platform.Platform.ConfigSet ⟨⟨"r", "b"⟩⟩
      (some { Region := "", BucketName := "b" }) = .error m :=
  (platform_configset_iff ⟨⟨"r", "b"⟩⟩ ⟨"", "b"⟩).1.mpr (Or.inl rfl)
